import Mathlib

/-!
Verification model of `src/scripts/data_ingestion.py` from the
satellite-ground-station-tool repository.

The script ingests mobile-carrier CSV site records, NBN coverage
shapefiles and an Optus KML coverage overlay into a PostGIS store.
This file gives a shallow embedding of its data model and operations:

* CSV cells are modelled by `Cell`: a cell either has a numeric
  interpretation (`Cell.num`, covering numeric columns and numeric
  strings that Python's `float` would accept) or is a plain string with
  no numeric interpretation (`Cell.str`).  A row is an association list
  of column name to cell; a missing column is an absent key.
* The `mobile_sites` table has a unique key `(site_id, carrier)`
  (the `ON CONFLICT (site_id, carrier)` target), so it is modelled as a
  function from keys to optional stored rows.
* The PostGIS coordinate transform `ST_Transform`/`to_crs` and the
  planar `area` of projected geometries are external to the script;
  definitions take them as explicit function parameters.
* `datetime.now()` is modelled by explicit `year`/`now` parameters.
-/

/-- A CSV cell value: either a string with no numeric interpretation, or a
numeric value (any cell Python's `float(...)` would successfully convert). -/
inductive Cell where
  | str (s : String)
  | num (q : Rat)
deriving DecidableEq, Repr

/-- `str(cell)`: the string rendering of a cell, as Python's `str` builtin. -/
def Cell.toStr : Cell → String
  | Cell.str s => s
  | Cell.num q => toString q

/-- `float(cell)`: the numeric interpretation of a cell; `none` models the
`ValueError`/`TypeError` raised (and caught) by the script. -/
def Cell.toFloat : Cell → Option Rat
  | Cell.str _ => none
  | Cell.num q => some q

/-- A CSV row: association list from column name to cell
(`band in row` is key membership, `row[col]` is lookup). -/
def CsvRow : Type := List (String × Cell)

/-- `row[col]` as an optional lookup (`none` models the Python `KeyError`). -/
def CsvRow.cell (row : CsvRow) (col : String) : Option Cell :=
  (List.find? (fun p => p.1 == col) row).map (fun p => p.2)

/-- Python's `str.lower()` (ASCII case folding, character by character). -/
def lowerStr (s : String) : String := String.mk (s.data.map Char.toLower)

/-- Python's `str.upper()` (ASCII case folding, character by character). -/
def upperStr (s : String) : String := String.mk (s.data.map Char.toUpper)

/-- `str(row[band]).upper() == 'Y'` for a present cell. -/
def Cell.isY (c : Cell) : Bool :=
  upperStr c.toStr == "Y"

/-- `pat` occurs at the start of `s` (on character lists). -/
def charsStartWith : List Char → List Char → Bool
  | _, [] => true
  | [], _ :: _ => false
  | c :: cs, d :: ds => c == d && charsStartWith cs ds

/-- `pat` occurs somewhere in `s` (on character lists). -/
def charsContain : List Char → List Char → Bool
  | [], pat => pat.isEmpty
  | c :: cs, pat => charsStartWith (c :: cs) pat || charsContain cs pat

/-- Substring test: `pat in s` in Python (`True` iff `pat` occurs in `s`). -/
def strContains (s pat : String) : Bool :=
  charsContain s.data pat.data

/-- The carrier-specific frequency-band column set of
`MobileSiteIngestion.parse_frequency_bands` (lines 78-90); unknown
carriers yield the empty list. -/
def band_columns (carrier : String) : List String :=
  if lowerStr carrier = "optus" then
    ["NBIoT700", "UMTS900", "UMTS2100", "LTE700", "LTE900",
     "LTE1800", "LTE2100", "LTE2300", "LTE2600", "NR900",
     "NR2100", "NR2300", "NR3500", "NR26000"]
  else if lowerStr carrier = "telstra" then
    ["GSM900", "IoT700", "WCDMA850", "WCDMA2100", "LTE700",
     "LTE850", "LTE900", "LTE1800", "LTE2100", "LTE2600",
     "NR700", "NR850", "NR2100", "NR2600", "NR3600", "NR26000"]
  else if lowerStr carrier = "tpg" then
    ["NBIoT850", "LTE700", "LTE850", "LTE1800", "LTE2100",
     "NR700", "NR1800", "NR2100", "NR3600", "NR26000"]
  else []

/-- `MobileSiteIngestion.parse_frequency_bands`: the bands of the carrier's
column set whose cell is present and case-insensitively equals `Y`,
in column-set order. -/
def parse_frequency_bands (row : CsvRow) (carrier : String) : List String :=
  (band_columns carrier).filter (fun band =>
    match row.cell band with
    | some c => c.isY
    | none => false)

/-- `MobileSiteIngestion.determine_technology`: first match in the fixed
precedence order NR → LTE → UMTS/WCDMA → GSM, else `Unknown`. -/
def determine_technology (bands : List String) : String :=
  if bands.any (fun band => strContains band "NR") then "5G"
  else if bands.any (fun band => strContains band "LTE") then "4G/LTE"
  else if bands.any (fun band => strContains band "UMTS" || strContains band "WCDMA") then "3G"
  else if bands.any (fun band => strContains band "GSM") then "2G"
  else "Unknown"

/-- The record built for one CSV row by
`MobileSiteIngestion.process_csv_file` (lines 139-156).  `site_type` is
`none` when the record carries no site-type field (the dict key is absent). -/
structure SiteRecord where
  site_id : String
  carrier : String
  site_name : String
  latitude : Rat
  longitude : Rat
  frequency_bands : List String
  technology : String
  operational_status : String
  data_source : String
  last_updated : Nat
  site_type : Option String
deriving DecidableEq, Repr

/-- The per-row body of the loop in `MobileSiteIngestion.process_csv_file`
(lines 123-162): `none` when the row is skipped, either by the explicit
out-of-bounds `continue` or by the `except` clause catching a failed
`float(...)` conversion or a missing required column. -/
def process_csv_row (carrier : String) (year now : Nat) (row : CsvRow) :
    Option SiteRecord :=
  let freq_bands := parse_frequency_bands row carrier
  let technology := determine_technology freq_bands
  match (row.cell "Latitude").bind Cell.toFloat,
        (row.cell "Longitude").bind Cell.toFloat with
  | some lat, some lon =>
    if -50 ≤ lat ∧ lat ≤ -10 ∧ 110 ≤ lon ∧ lon ≤ 160 then
      match row.cell "RFNSA ID" with
      | some idCell =>
        let baseName := carrier ++ " Site " ++ idCell.toStr
        let cofunded :=
          match row.cell "Co_funded" with
          | some c => c.isY
          | none => false
        some { site_id := idCell.toStr
               carrier := carrier
               site_name :=
                 if cofunded then
                   match row.cell "Co_contribution_program" with
                   | some p => baseName ++ " (" ++ p.toStr ++ ")"
                   | none => baseName
                 else baseName
               latitude := lat
               longitude := lon
               frequency_bands := freq_bands
               technology := technology
               operational_status := "Active"
               data_source := "CSV_" ++ carrier ++ "_" ++ toString year
               last_updated := now
               site_type := if cofunded then some "Co-funded" else none }
      | none => none
    else none
  | _, _ => none

/-- `MobileSiteIngestion.process_csv_file`: process every row of the file,
skipping rejected rows and continuing with the rest. -/
def process_csv_file (carrier : String) (year now : Nat) (rows : List CsvRow) :
    List SiteRecord :=
  rows.filterMap (process_csv_row carrier year now)

/-- A stored row of the `mobile_sites` table, with the derived geometry
columns `location` (WGS84 point built from lon/lat) and `location_mga56`
(the same point transformed to EPSG:7856 by the external `ST_Transform`,
modelled by the `proj` parameter below). -/
structure StoredSite where
  site_id : String
  carrier : String
  site_name : String
  latitude : Rat
  longitude : Rat
  location : Rat × Rat
  location_mga56 : Rat × Rat
  frequency_bands : List String
  technology : String
  operational_status : String
  data_source : String
  last_updated : Nat
  site_type : Option String
deriving DecidableEq, Repr

/-- The `mobile_sites` table: it has a unique key `(site_id, carrier)`
(the `ON CONFLICT` target), so it is a map from keys to optional rows. -/
def SiteStore : Type := String × String → Option StoredSite

/-- The row written by the `INSERT ... VALUES` branch of the SQL in
`insert_mobile_sites` (lines 182-192). -/
def inserted_row (proj : Rat × Rat → Rat × Rat) (r : SiteRecord) : StoredSite :=
  { site_id := r.site_id
    carrier := r.carrier
    site_name := r.site_name
    latitude := r.latitude
    longitude := r.longitude
    location := (r.longitude, r.latitude)
    location_mga56 := proj (r.longitude, r.latitude)
    frequency_bands := r.frequency_bands
    technology := r.technology
    operational_status := r.operational_status
    data_source := r.data_source
    last_updated := r.last_updated
    site_type := r.site_type }

/-- The row produced by the `ON CONFLICT ... DO UPDATE SET` branch
(lines 193-204): every listed field is set from `EXCLUDED` (the incoming
record); `site_type` is `COALESCE(EXCLUDED.site_type, mobile_sites.site_type)`;
the key columns and `data_source`, absent from the SET list, keep
their stored values. -/
def updated_row (proj : Rat × Rat → Rat × Rat) (q : StoredSite) (r : SiteRecord) :
    StoredSite :=
  { site_id := q.site_id
    carrier := q.carrier
    site_name := r.site_name
    latitude := r.latitude
    longitude := r.longitude
    location := (r.longitude, r.latitude)
    location_mga56 := proj (r.longitude, r.latitude)
    frequency_bands := r.frequency_bands
    technology := r.technology
    operational_status := r.operational_status
    data_source := q.data_source
    last_updated := r.last_updated
    site_type := r.site_type.orElse (fun _ => q.site_type) }

/-- The key of an incoming record, as targeted by `ON CONFLICT (site_id, carrier)`. -/
def siteKey (r : SiteRecord) : String × String := (r.site_id, r.carrier)

/-- One `cursor.execute(insert_sql, record)`: insert the row, or on key
conflict update the conflicting row as in `updated_row`. -/
def upsert_site (proj : Rat × Rat → Rat × Rat) (s : SiteStore) (r : SiteRecord) :
    SiteStore :=
  fun k =>
    if k = siteKey r then
      some (match s (siteKey r) with
            | some q => updated_row proj q r
            | none => inserted_row proj r)
    else s k

/-- Lines 209-211 of `insert_mobile_sites`: a record without a `site_type`
key receives the default value `Standard` before the SQL statement runs. -/
def default_site_type (r : SiteRecord) : SiteRecord :=
  { r with site_type := some (r.site_type.getD "Standard") }

/-- `MobileSiteIngestion.insert_mobile_sites`: default the site type of each
record, then execute the upsert statement for each record in order. -/
def insert_mobile_sites (proj : Rat × Rat → Rat × Rat)
    (records : List SiteRecord) (s : SiteStore) : SiteStore :=
  records.foldl (fun st r => upsert_site proj st (default_site_type r)) s

/-- The empty `mobile_sites` table. -/
def emptySiteStore : SiteStore := fun _ => none

/-- A stored row of an NBN coverage table, parameterised by the geometry
type `G` (geometries and their reprojection live in geopandas, outside
the script). -/
structure NbnRow (G : Type) where
  geometry : G
  coverage_type : String
  data_source : String
  last_updated : Nat
deriving DecidableEq, Repr

/-- The NBN coverage tables, keyed by table name
(`to_postgis(table_name, ..., if_exists='replace')` rewrites one table). -/
def NbnDb (G : Type) : Type := String → List (NbnRow G)

/-- Line 253 of `NBNDataIngestion.process_nbn_shapefile`:
`f"nbn_{coverage_type.lower().replace(' ', '_')}_coverage"`. -/
def nbn_table_name (coverage_type : String) : String :=
  "nbn_" ++ String.mk ((lowerStr coverage_type).data.map
    (fun c => if c == ' ' then '_' else c)) ++ "_coverage"

/-- The rows written by `process_nbn_shapefile` (lines 236-261): if the
frame declares no CRS assume EPSG:7856, reproject every geometry to
EPSG:4326 (`toCrs from to g` models geopandas `to_crs`), and tag each
feature with the coverage type, provenance and timestamp. -/
def nbn_rows {G : Type} (toCrs : Nat → Nat → G → G) (year now : Nat)
    (crs : Option Nat) (geoms : List G) (coverage_type : String) : List (NbnRow G) :=
  let srcCrs := crs.getD 7856
  (geoms.map (toCrs srcCrs 4326)).map (fun g =>
    { geometry := g
      coverage_type := coverage_type
      data_source := "NBN_Shapefile_" ++ toString year
      last_updated := now })

/-- `NBNDataIngestion.process_nbn_shapefile`: write the derived rows into
the category's table with `if_exists='replace'`, leaving every other
table as it was. -/
def process_nbn_shapefile {G : Type} (toCrs : Nat → Nat → G → G) (year now : Nat)
    (db : NbnDb G) (crs : Option Nat) (geoms : List G) (coverage_type : String) :
    NbnDb G :=
  fun t =>
    if t = nbn_table_name coverage_type then
      nbn_rows toCrs year now crs geoms coverage_type
    else db t

/-- A KML placemark as read by `gpd.read_file(..., driver='KML')`:
a name, a description and a geometry. -/
structure KmlFeature (G : Type) where
  name : String
  description : String
  geometry : G
deriving DecidableEq, Repr

/-- A stored row of the `mobile_coverage_areas` table (the
`columns_to_keep` of line 310; `Name`/`Description` are dropped). -/
structure CoverageRow (G : Type) where
  carrier : String
  technology : String
  coverage_type : String
  signal_strength : String
  geometry : G
  area_sqkm : Rat
  last_updated : Nat
  data_source : String
deriving DecidableEq, Repr

/-- The coverage-area tables, keyed by table name. -/
def CoverageDb (G : Type) : Type := String → List (CoverageRow G)

/-- The rows derived from a KML file by `KMLDataIngestion.process_optus_kml`
(lines 282-312): normalize the frame to EPSG:4326 unless it already is,
fix the carrier/technology/category/signal constants, and compute
`area_sqkm` as the planar area of the geometry reprojected to EPSG:7856
divided by 1,000,000 (`area` models geopandas `.area` on a projected
frame; `toCrs from to g` models `to_crs`). -/
def kml_rows {G : Type} (toCrs : Nat → Nat → G → G) (area : G → Rat)
    (year now : Nat) (crs : Nat) (feats : List (KmlFeature G)) : List (CoverageRow G) :=
  let geoms := feats.map (fun f => f.geometry)
  let geoms4326 := if crs = 4326 then geoms else geoms.map (toCrs crs 4326)
  geoms4326.map (fun g =>
    { carrier := "Optus"
      technology := "4G"
      coverage_type := "4G External Antenna"
      signal_strength := "Good"
      geometry := g
      area_sqkm := area (toCrs 4326 7856 g) / 1000000
      last_updated := now
      data_source := "Optus_KML_" ++ toString year })

/-- `KMLDataIngestion.process_optus_kml`: append the derived rows to the
`mobile_coverage_areas` table with `if_exists='append'`, leaving every
other table as it was. -/
def process_optus_kml {G : Type} (toCrs : Nat → Nat → G → G) (area : G → Rat)
    (year now : Nat) (db : CoverageDb G) (crs : Nat) (feats : List (KmlFeature G)) :
    CoverageDb G :=
  fun t =>
    if t = "mobile_coverage_areas" then
      db t ++ kml_rows toCrs area year now crs feats
    else db t

/-- The out-of-bounds example row of the spec (Latitude 40.0, Longitude 151.2). -/
def c3_bad_row : CsvRow :=
  [("RFNSA ID", Cell.num 9000001), ("Latitude", Cell.num 40),
   ("Longitude", Cell.num (1512/10)), ("LTE700", Cell.str "Y")]

/-- The in-bounds example row of the spec (Latitude -33.8, Longitude 151.2). -/
def c3_good_row : CsvRow :=
  [("RFNSA ID", Cell.num 9000002), ("Latitude", Cell.num (-338/10)),
   ("Longitude", Cell.num (1512/10)), ("LTE700", Cell.str "Y"), ("NR3500", Cell.str "Y")]

/-- A row whose Latitude cell has no numeric interpretation. -/
def c6_bad_row : CsvRow :=
  [("RFNSA ID", Cell.num 9000003), ("Latitude", Cell.str "not-a-number"),
   ("Longitude", Cell.num (1512/10))]

/-- The concrete coverage row for the C7 witness: geometry model
`G := Nat`, `toCrs a b g := a + b + g`, `area g := g`. -/
def c7_row : CoverageRow Nat :=
  { carrier := "Optus", technology := "4G", coverage_type := "4G External Antenna",
    signal_strength := "Good", geometry := 5,
    area_sqkm := ((4326 + 7856 + 5 : Nat) : Rat) / 1000000,
    last_updated := 0, data_source := "Optus_KML_" ++ toString 2024 }

/-- A first upsert for key `("10001", "Telstra")` carrying site-type
`Co-funded`. -/
def c1_first : SiteRecord :=
  { site_id := "10001", carrier := "Telstra", site_name := "Telstra Site 10001",
    latitude := -35, longitude := 149, frequency_bands := ["LTE700"],
    technology := "4G/LTE", operational_status := "Active",
    data_source := "CSV_Telstra_2024", last_updated := 1,
    site_type := some "Co-funded" }

/-- A later upsert for the same key with no site-type field present. -/
def c1_second : SiteRecord :=
  { site_id := "10001", carrier := "Telstra", site_name := "Telstra Site 10001",
    latitude := -35, longitude := 149, frequency_bands := ["LTE700", "NR700"],
    technology := "5G", operational_status := "Active",
    data_source := "CSV_Telstra_2025", last_updated := 2,
    site_type := none }

/-- The invariant C10 claims of the store: every stored site's type is
`Standard` or `Co-funded`. -/
def SiteTypeInv (s : SiteStore) : Prop :=
  ∀ k q, s k = some q → q.site_type = some "Standard" ∨ q.site_type = some "Co-funded"

/-- The effect of one upsert on the row stored at the record's own key. -/
def upsert_step (proj : Rat × Rat → Rat × Rat) (o : Option StoredSite)
    (r : SiteRecord) : Option StoredSite :=
  some (match o with
        | some q => updated_row proj q (default_site_type r)
        | none => inserted_row proj (default_site_type r))

/-- Replay a record list against the row stored at one fixed key. -/
def apply_at (proj : Rat × Rat → Rat × Rat) (o : Option StoredSite)
    (recs : List SiteRecord) : Option StoredSite :=
  recs.foldl (upsert_step proj) o

/-- `List.any` only depends on which elements are present. -/
lemma any_congr_of_mem_iff {l₁ l₂ : List String} (h : ∀ b, b ∈ l₁ ↔ b ∈ l₂)
    (p : String → Bool) : l₁.any p = l₂.any p := by
  cases h₂ : l₂.any p with
  | true =>
    rw [List.any_eq_true] at h₂ ⊢
    obtain ⟨b, hb, hpb⟩ := h₂
    exact ⟨b, (h b).2 hb, hpb⟩
  | false =>
    rw [List.any_eq_false] at h₂ ⊢
    exact fun b hb => h₂ b ((h b).1 hb)

/-- C2: technology-class derivation is total and order-independent (a
function of the set of present bands, invariant under permutation and
duplication), and follows the strict precedence NR → LTE → UMTS/WCDMA →
GSM → Unknown; in particular a band set with both an LTE marker and a
5G marker yields 5G. -/
theorem C2_determine_technology_precedence (bands other : List String)
    (hmem : ∀ b, b ∈ other ↔ b ∈ bands) :
    determine_technology other = determine_technology bands
    ∧ (determine_technology bands = "5G" ↔ ∃ b ∈ bands, strContains b "NR" = true)
    ∧ ((¬ ∃ b ∈ bands, strContains b "NR" = true) →
        (determine_technology bands = "4G/LTE" ↔ ∃ b ∈ bands, strContains b "LTE" = true))
    ∧ ((¬ ∃ b ∈ bands, strContains b "NR" = true) →
       (¬ ∃ b ∈ bands, strContains b "LTE" = true) →
        (determine_technology bands = "3G" ↔
          ∃ b ∈ bands, (strContains b "UMTS" || strContains b "WCDMA") = true))
    ∧ ((¬ ∃ b ∈ bands, strContains b "NR" = true) →
       (¬ ∃ b ∈ bands, strContains b "LTE" = true) →
       (¬ ∃ b ∈ bands, (strContains b "UMTS" || strContains b "WCDMA") = true) →
        (determine_technology bands = "2G" ↔ ∃ b ∈ bands, strContains b "GSM" = true))
    ∧ ((¬ ∃ b ∈ bands, strContains b "NR" = true) →
       (¬ ∃ b ∈ bands, strContains b "LTE" = true) →
       (¬ ∃ b ∈ bands, (strContains b "UMTS" || strContains b "WCDMA") = true) →
       (¬ ∃ b ∈ bands, strContains b "GSM" = true) →
        determine_technology bands = "Unknown")
    ∧ ((∃ b ∈ bands, strContains b "LTE" = true) →
       (∃ b ∈ bands, strContains b "NR" = true) →
        determine_technology bands = "5G") := by
  refine ⟨?_, ?_, ?_, ?_, ?_, ?_, ?_⟩
  · simp only [determine_technology, any_congr_of_mem_iff hmem]
  all_goals
    unfold determine_technology
    split_ifs with h₁ h₂ h₃ h₄ <;>
      simp_all [List.any_eq_true]

/-- Witness for C2 at a concrete band set: the list with a duplicate and
permuted order derives the same class, and LTE + NR yields 5G. -/
theorem C2_determine_technology_precedence_witness :
    (∀ b, b ∈ (["NR3500", "LTE700", "LTE700"] : List String) ↔
          b ∈ (["LTE700", "NR3500"] : List String))
    ∧ determine_technology ["NR3500", "LTE700", "LTE700"]
        = determine_technology ["LTE700", "NR3500"]
    ∧ determine_technology ["LTE700", "NR3500"] = "5G" := by
  have hmem : ∀ b, b ∈ (["NR3500", "LTE700", "LTE700"] : List String) ↔
      b ∈ (["LTE700", "NR3500"] : List String) := by
    intro b
    simp only [List.mem_cons, List.not_mem_nil, or_false]
    tauto
  have h := C2_determine_technology_precedence ["LTE700", "NR3500"]
    ["NR3500", "LTE700", "LTE700"] hmem
  exact ⟨hmem, h.1, h.2.2.2.2.2.2 (by decide) (by decide)⟩

/-- Any record emitted for a row satisfies the Australia bounds check. -/
lemma process_csv_row_some_bounds {carrier : String} {year now : Nat}
    {row : CsvRow} {rec : SiteRecord}
    (h : process_csv_row carrier year now row = some rec) :
    -50 ≤ rec.latitude ∧ rec.latitude ≤ -10
      ∧ 110 ≤ rec.longitude ∧ rec.longitude ≤ 160 := by
  unfold process_csv_row at h
  split at h
  case _ lat lon hlat hlon =>
    split_ifs at h with hb
    split at h
    case _ idCell hid =>
      cases h
      exact hb
    case _ => exact absurd h (by simp)
  case _ => exact absurd h (by simp)

/-- C3: a row whose parsed coordinates fall outside the configured bounds
(-50 ≤ lat ≤ -10, 110 ≤ lon ≤ 160) is rejected and produces no record;
every record in the adapter's output satisfies the bounds; and an
in-bounds row with an RFNSA ID is accepted with those coordinates. -/
theorem C3_out_of_bounds_rejected (carrier : String) (year now : Nat)
    (rows : List CsvRow) (row : CsvRow) (lat lon : Rat) (idCell : Cell) :
    ((row.cell "Latitude").bind Cell.toFloat = some lat →
     (row.cell "Longitude").bind Cell.toFloat = some lon →
     ¬(-50 ≤ lat ∧ lat ≤ -10 ∧ 110 ≤ lon ∧ lon ≤ 160) →
     process_csv_row carrier year now row = none)
    ∧ (∀ rec ∈ process_csv_file carrier year now rows,
        -50 ≤ rec.latitude ∧ rec.latitude ≤ -10
          ∧ 110 ≤ rec.longitude ∧ rec.longitude ≤ 160)
    ∧ ((row.cell "Latitude").bind Cell.toFloat = some lat →
       (row.cell "Longitude").bind Cell.toFloat = some lon →
       (-50 ≤ lat ∧ lat ≤ -10 ∧ 110 ≤ lon ∧ lon ≤ 160) →
       row.cell "RFNSA ID" = some idCell →
       ∃ rec, process_csv_row carrier year now row = some rec
         ∧ rec.latitude = lat ∧ rec.longitude = lon) := by
  refine ⟨?_, ?_, ?_⟩
  · intro hlat hlon hout
    unfold process_csv_row
    rw [hlat, hlon]
    simp only [if_neg hout]
  · intro rec hrec
    rw [process_csv_file, List.mem_filterMap] at hrec
    obtain ⟨row', _, hrow'⟩ := hrec
    exact process_csv_row_some_bounds hrow'
  · intro hlat hlon hin hid
    unfold process_csv_row
    rw [hlat, hlon]
    simp only [if_pos hin]
    rw [hid]
    exact ⟨_, rfl, rfl, rfl⟩

/-- Witness for C3: the row at latitude 40.0 is rejected, the row at
latitude -33.8 is accepted with its coordinates. -/
theorem C3_out_of_bounds_rejected_witness :
    ((c3_bad_row.cell "Latitude").bind Cell.toFloat = some 40
      ∧ ¬(-50 ≤ (40 : Rat) ∧ (40 : Rat) ≤ -10
            ∧ 110 ≤ (1512/10 : Rat) ∧ (1512/10 : Rat) ≤ 160)
      ∧ process_csv_row "Optus" 2024 0 c3_bad_row = none)
    ∧ ∃ rec, process_csv_row "Optus" 2024 0 c3_good_row = some rec
        ∧ rec.latitude = -338/10 ∧ rec.longitude = 1512/10 := by
  refine ⟨⟨rfl, by norm_num, ?_⟩, ?_⟩
  · exact (C3_out_of_bounds_rejected "Optus" 2024 0 [] c3_bad_row 40 (1512/10)
      (Cell.num 9000001)).1 rfl rfl (by norm_num)
  · exact (C3_out_of_bounds_rejected "Optus" 2024 0 [] c3_good_row (-338/10) (1512/10)
      (Cell.num 9000002)).2.2 rfl rfl (by norm_num) rfl

/-- A row with an unparseable/missing coordinate or a missing RFNSA ID
produces no record (the loop's `except` clause catches and continues). -/
lemma process_csv_row_none_of_malformed (carrier : String) (year now : Nat)
    (row : CsvRow)
    (h : (row.cell "Latitude").bind Cell.toFloat = none
       ∨ (row.cell "Longitude").bind Cell.toFloat = none
       ∨ row.cell "RFNSA ID" = none) :
    process_csv_row carrier year now row = none := by
  unfold process_csv_row
  rcases hlat : (row.cell "Latitude").bind Cell.toFloat with _ | lat
  · rfl
  rcases hlon : (row.cell "Longitude").bind Cell.toFloat with _ | lon
  · rfl
  rcases h with h | h | h
  · exact absurd hlat (h ▸ by simp)
  · exact absurd hlon (h ▸ by simp)
  · simp [h]

/-- C6: a malformed record (unparseable coordinate or missing required
field) is skipped on its own; the adapter does not raise and every other
record of the file is still emitted. -/
theorem C6_malformed_record_isolation (carrier : String) (year now : Nat)
    (pre post : List CsvRow) (bad : CsvRow)
    (h : (bad.cell "Latitude").bind Cell.toFloat = none
       ∨ (bad.cell "Longitude").bind Cell.toFloat = none
       ∨ bad.cell "RFNSA ID" = none) :
    process_csv_file carrier year now (pre ++ bad :: post)
      = process_csv_file carrier year now pre
          ++ process_csv_file carrier year now post := by
  have hb := process_csv_row_none_of_malformed carrier year now bad h
  simp [process_csv_file, List.filterMap_append, List.filterMap_cons, hb]

/-- Witness for C6: a file with one malformed row between two valid rows
yields exactly the records of the valid rows. -/
theorem C6_malformed_record_isolation_witness :
    (c6_bad_row.cell "Latitude").bind Cell.toFloat = none
    ∧ process_csv_file "Optus" 2024 0 ([c3_good_row] ++ c6_bad_row :: [c3_good_row])
        = process_csv_file "Optus" 2024 0 [c3_good_row]
            ++ process_csv_file "Optus" 2024 0 [c3_good_row] :=
  ⟨rfl, C6_malformed_record_isolation "Optus" 2024 0 [c3_good_row] [c3_good_row]
    c6_bad_row (Or.inl rfl)⟩

/-- C9: a carrier that is none of Optus/Telstra/TPG (case-insensitively)
yields an empty frequency-band set, the technology derivation maps that
to Unknown, and a valid row for such a carrier is still accepted. -/
theorem C9_unknown_carrier_unknown_technology (carrier : String) (year now : Nat)
    (row : CsvRow)
    (h1 : lowerStr carrier ≠ "optus") (h2 : lowerStr carrier ≠ "telstra")
    (h3 : lowerStr carrier ≠ "tpg") :
    parse_frequency_bands row carrier = []
    ∧ determine_technology (parse_frequency_bands row carrier) = "Unknown"
    ∧ ∀ (lat lon : Rat) (idCell : Cell),
        (row.cell "Latitude").bind Cell.toFloat = some lat →
        (row.cell "Longitude").bind Cell.toFloat = some lon →
        (-50 ≤ lat ∧ lat ≤ -10 ∧ 110 ≤ lon ∧ lon ≤ 160) →
        row.cell "RFNSA ID" = some idCell →
        ∃ rec, process_csv_row carrier year now row = some rec
          ∧ rec.frequency_bands = [] ∧ rec.technology = "Unknown" := by
  have hbc : band_columns carrier = [] := by
    unfold band_columns
    rw [if_neg h1, if_neg h2, if_neg h3]
  have hpb : parse_frequency_bands row carrier = [] := by
    rw [parse_frequency_bands, hbc]
    rfl
  refine ⟨hpb, by rw [hpb]; rfl, ?_⟩
  intro lat lon idCell hlat hlon hin hid
  unfold process_csv_row
  rw [hlat, hlon]
  simp only [if_pos hin]
  rw [hid]
  exact ⟨_, rfl, by simp [hpb], by simp [hpb]; rfl⟩

/-- Witness for C9 at the concrete unknown carrier `Vodafone`. -/
theorem C9_unknown_carrier_unknown_technology_witness :
    (lowerStr "Vodafone" ≠ "optus" ∧ lowerStr "Vodafone" ≠ "telstra"
      ∧ lowerStr "Vodafone" ≠ "tpg")
    ∧ parse_frequency_bands c3_good_row "Vodafone" = []
    ∧ ∃ rec, process_csv_row "Vodafone" 2024 0 c3_good_row = some rec
        ∧ rec.frequency_bands = [] ∧ rec.technology = "Unknown" := by
  have h := C9_unknown_carrier_unknown_technology "Vodafone" 2024 0 c3_good_row
    (by decide) (by decide) (by decide)
  exact ⟨⟨by decide, by decide, by decide⟩, h.1,
    h.2.2 (-338/10) (1512/10) (Cell.num 9000002) rfl rfl (by norm_num) rfl⟩

/-- C4: re-running the polygon-coverage ingestion for one category
replaces that category's table with exactly the rows derived from the
new file, and the table of any category with a different table name is
left unchanged. -/
theorem C4_nbn_category_replace {G : Type} (toCrs : Nat → Nat → G → G)
    (year now : Nat) (db : NbnDb G)
    (crsOld : Option Nat) (geomsOld : List G) (crsNew : Option Nat) (geomsNew : List G)
    (cov covOther : String) :
    (process_nbn_shapefile toCrs year now
        (process_nbn_shapefile toCrs year now db crsOld geomsOld cov)
        crsNew geomsNew cov) (nbn_table_name cov)
      = nbn_rows toCrs year now crsNew geomsNew cov
    ∧ (nbn_table_name covOther ≠ nbn_table_name cov →
       (process_nbn_shapefile toCrs year now
          (process_nbn_shapefile toCrs year now db crsOld geomsOld cov)
          crsNew geomsNew cov) (nbn_table_name covOther)
         = db (nbn_table_name covOther)) := by
  constructor
  · simp [process_nbn_shapefile]
  · intro hne
    simp [process_nbn_shapefile, if_neg hne]

/-- Witness for C4: re-running the Wireless ingestion replaces exactly the
`nbn_wireless_coverage` table and leaves `nbn_fixed_line_coverage` alone. -/
theorem C4_nbn_category_replace_witness :
    nbn_table_name "Fixed Line" ≠ nbn_table_name "Wireless"
    ∧ (process_nbn_shapefile (fun _ _ g => g) 2024 0
        (process_nbn_shapefile (fun _ _ g => g) 2024 0 (fun _ => []) (some 7856) [1, 2] "Wireless")
        (some 7856) ([3] : List Nat) "Wireless") (nbn_table_name "Wireless")
      = nbn_rows (fun _ _ g => g) 2024 0 (some 7856) [3] "Wireless"
    ∧ (process_nbn_shapefile (fun _ _ g => g) 2024 0
        (process_nbn_shapefile (fun _ _ g => g) 2024 0 (fun _ => []) (some 7856) [1, 2] "Wireless")
        (some 7856) ([3] : List Nat) "Wireless") (nbn_table_name "Fixed Line")
      = (fun _ => ([] : List (NbnRow Nat))) (nbn_table_name "Fixed Line") := by
  have h := C4_nbn_category_replace (fun _ _ g => g) 2024 0
    (fun _ => ([] : List (NbnRow Nat))) (some 7856) [1, 2] (some 7856) [3]
    "Wireless" "Fixed Line"
  exact ⟨by decide, h.1, h.2 (by decide)⟩

/-- C7: every stored coverage row's planar area is the area of the
geometry reprojected to the canonical projected CRS (EPSG:7856),
divided by 1,000,000 — never the area of the geographic geometry. -/
theorem C7_area_from_projected_geometry {G : Type} (toCrs : Nat → Nat → G → G)
    (area : G → Rat) (year now : Nat) (crs : Nat) (feats : List (KmlFeature G))
    (row : CoverageRow G) (hrow : row ∈ kml_rows toCrs area year now crs feats) :
    ∃ g, row.geometry = g ∧ row.area_sqkm = area (toCrs 4326 7856 g) / 1000000 := by
  unfold kml_rows at hrow
  rw [List.mem_map] at hrow
  obtain ⟨g, _, hg⟩ := hrow
  exact ⟨g, by rw [← hg], by rw [← hg]⟩

/-- Witness for C7 at a concrete geometry model. -/
theorem C7_area_from_projected_geometry_witness :
    c7_row ∈ kml_rows (fun a b g => a + b + g) (fun g => (g : Rat)) 2024 0 4326
        [⟨"Area A", "desc", 5⟩]
    ∧ ∃ g, c7_row.geometry = g
        ∧ c7_row.area_sqkm = ((4326 + 7856 + g : Nat) : Rat) / 1000000 := by
  have hmem : c7_row ∈ kml_rows (fun a b g => a + b + g) (fun g => (g : Rat)) 2024 0 4326
      [⟨"Area A", "desc", 5⟩] := List.mem_singleton.mpr rfl
  exact ⟨hmem, C7_area_from_projected_geometry (fun a b g => a + b + g)
    (fun g => (g : Rat)) 2024 0 4326 [⟨"Area A", "desc", 5⟩] c7_row hmem⟩

/-- C8: KML ingestion is a pure append on `mobile_coverage_areas`: the new
table contents are the old contents followed by exactly the file's rows,
every other table is untouched, and re-ingesting the same file appends
the same rows again (duplicating them). -/
theorem C8_kml_pure_append {G : Type} (toCrs : Nat → Nat → G → G) (area : G → Rat)
    (year now : Nat) (db : CoverageDb G) (crs : Nat) (feats : List (KmlFeature G))
    (t : String) :
    (process_optus_kml toCrs area year now db crs feats) "mobile_coverage_areas"
      = db "mobile_coverage_areas" ++ kml_rows toCrs area year now crs feats
    ∧ (t ≠ "mobile_coverage_areas" →
       (process_optus_kml toCrs area year now db crs feats) t = db t)
    ∧ (process_optus_kml toCrs area year now
        (process_optus_kml toCrs area year now db crs feats) crs feats)
        "mobile_coverage_areas"
      = db "mobile_coverage_areas" ++ kml_rows toCrs area year now crs feats
          ++ kml_rows toCrs area year now crs feats := by
  refine ⟨by simp [process_optus_kml], fun h => by simp [process_optus_kml, if_neg h], ?_⟩
  simp [process_optus_kml]

/-- Witness for C8: appending twice on a concrete store duplicates the rows. -/
theorem C8_kml_pure_append_witness :
    ("other_table" : String) ≠ "mobile_coverage_areas"
    ∧ (process_optus_kml (fun a b g => a + b + g) (fun g => (g : Rat)) 2024 0
        (fun _ => []) 4326 [⟨"Area A", "desc", 5⟩]) "other_table"
      = (fun _ => ([] : List (CoverageRow Nat))) "other_table"
    ∧ (process_optus_kml (fun a b g => a + b + g) (fun g => (g : Rat)) 2024 0
        (process_optus_kml (fun a b g => a + b + g) (fun g => (g : Rat)) 2024 0
          (fun _ => []) 4326 [⟨"Area A", "desc", 5⟩]) 4326 [⟨"Area A", "desc", 5⟩])
        "mobile_coverage_areas"
      = ([] : List (CoverageRow Nat))
          ++ kml_rows (fun a b g => a + b + g) (fun g => (g : Rat)) 2024 0 4326
              [⟨"Area A", "desc", 5⟩]
          ++ kml_rows (fun a b g => a + b + g) (fun g => (g : Rat)) 2024 0 4326
              [⟨"Area A", "desc", 5⟩] := by
  have h := C8_kml_pure_append (fun a b g => a + b + g) (fun g => (g : Rat)) 2024 0
    (fun _ => ([] : List (CoverageRow Nat))) 4326 [⟨"Area A", "desc", 5⟩] "other_table"
  exact ⟨by decide, h.2.1 (by decide), h.2.2⟩

/-- C1: evaluation of the code at the failing input.  After upserting a
site with site-type `Co-funded` and then upserting a record for the same
key with no site-type field, the stored site-type is `Standard`, not the
retained `Co-funded`: the Python-side defaulting of `site_type` to
`Standard` (lines 209-211) runs before the SQL statement, so the
`COALESCE(EXCLUDED.site_type, mobile_sites.site_type)` never sees a NULL
incoming value and the prior classification is overwritten. -/
theorem C1_site_type_not_retained (proj : Rat × Rat → Rat × Rat) :
    ((insert_mobile_sites proj [c1_first] emptySiteStore)
        ("10001", "Telstra")).map StoredSite.site_type = some (some "Co-funded")
    ∧ ((insert_mobile_sites proj [c1_second]
          (insert_mobile_sites proj [c1_first] emptySiteStore))
        ("10001", "Telstra")).map StoredSite.site_type = some (some "Standard") :=
  ⟨rfl, rfl⟩

/-- Records built by the CSV adapter carry either no site-type or `Co-funded`. -/
lemma process_csv_row_site_type {carrier : String} {year now : Nat}
    {row : CsvRow} {rec : SiteRecord}
    (h : process_csv_row carrier year now row = some rec) :
    rec.site_type = none ∨ rec.site_type = some "Co-funded" := by
  unfold process_csv_row at h
  split at h
  case _ lat lon hlat hlon =>
    split_ifs at h with hb
    split at h
    case _ idCell hid =>
      cases h
      by_cases hco : (match row.cell "Co_funded" with
        | some c => c.isY
        | none => false) = true
      · right
        simp [hco]
      · left
        simp [hco]
    case _ => exact absurd h (by simp)
  case _ => exact absurd h (by simp)

/-- Upserting records whose site-type is absent or `Co-funded` preserves
the invariant (the defaulting turns an absent type into `Standard`). -/
lemma insert_preserves_site_type_inv (proj : Rat × Rat → Rat × Rat)
    (recs : List SiteRecord) (s : SiteStore) (hs : SiteTypeInv s)
    (hrecs : ∀ r ∈ recs, r.site_type = none ∨ r.site_type = some "Co-funded") :
    SiteTypeInv (insert_mobile_sites proj recs s) := by
  induction recs generalizing s with
  | nil => exact hs
  | cons r recs ih =>
    refine ih (upsert_site proj s (default_site_type r)) ?_
      (fun r' hr' => hrecs r' (List.mem_cons_of_mem r hr'))
    intro k q hq
    unfold upsert_site at hq
    split_ifs at hq with hk
    · have hst : (default_site_type r).site_type = some "Standard"
          ∨ (default_site_type r).site_type = some "Co-funded" := by
        rcases hrecs r (List.mem_cons_self r recs) with h | h <;>
          simp [default_site_type, h]
      cases hq
      split
      case _ q' hq' =>
        rcases hst with h | h <;> [left; right] <;>
          simp [updated_row, h]
      case _ hq' =>
        rcases hst with h | h <;> [left; right] <;>
          simp [inserted_row, h]
    · exact hs k q hq

/-- C10: every record handed to the upsert without a site-type field is
given the concrete value `Standard` before the SQL statement runs (the
merge logic never sees an absent site-type), and ingesting CSV-derived
records into a store satisfying the site-type invariant leaves every
stored site with site-type `Standard` or `Co-funded`. -/
theorem C10_site_type_defaulted (proj : Rat × Rat → Rat × Rat) (carrier : String)
    (year now : Nat) (rows : List CsvRow) (s : SiteStore) (hs : SiteTypeInv s) :
    (∀ r : SiteRecord, (default_site_type r).site_type.isSome)
    ∧ SiteTypeInv (insert_mobile_sites proj
        (process_csv_file carrier year now rows) s) := by
  refine ⟨fun r => by simp [default_site_type], ?_⟩
  refine insert_preserves_site_type_inv proj _ s hs ?_
  intro r hr
  rw [process_csv_file, List.mem_filterMap] at hr
  obtain ⟨row, _, hrow⟩ := hr
  exact process_csv_row_site_type hrow

/-- Witness for C10: ingesting the example row into the empty store. -/
theorem C10_site_type_defaulted_witness :
    SiteTypeInv emptySiteStore
    ∧ ((∀ r : SiteRecord, (default_site_type r).site_type.isSome)
       ∧ SiteTypeInv (insert_mobile_sites (fun p => p)
           (process_csv_file "Optus" 2024 0 [c3_good_row]) emptySiteStore)) := by
  have hs : SiteTypeInv emptySiteStore := by
    intro k q h
    simp [emptySiteStore] at h
  exact ⟨hs, C10_site_type_defaulted (fun p => p) "Optus" 2024 0 [c3_good_row]
    emptySiteStore hs⟩

/-- `(some a).orElse f = some a`. -/
lemma some_orElse_eq {α : Type} (a : α) (f : Unit → Option α) :
    (some a).orElse f = some a := rfl

/-- The batch upsert, observed at a single key, is the replay of exactly
the records with that key. -/
lemma insert_mobile_sites_char (proj : Rat × Rat → Rat × Rat)
    (recs : List SiteRecord) : ∀ (s : SiteStore) (k : String × String),
    insert_mobile_sites proj recs s k
      = apply_at proj (s k) (recs.filter (fun r => decide (siteKey r = k))) := by
  induction recs with
  | nil => intro s k; rfl
  | cons r recs ih =>
    intro s k
    have hstep : insert_mobile_sites proj (r :: recs) s
        = insert_mobile_sites proj recs (upsert_site proj s (default_site_type r)) := rfl
    rw [hstep, ih]
    have hsk : siteKey (default_site_type r) = siteKey r := rfl
    by_cases hk : siteKey r = k
    · have h1 : (upsert_site proj s (default_site_type r)) k = upsert_step proj (s k) r := by
        unfold upsert_site upsert_step
        rw [hsk, if_pos hk.symm, hk]
      rw [h1, List.filter_cons, if_pos (by simp [hk])]
      rfl
    · have h1 : (upsert_site proj s (default_site_type r)) k = s k := by
        unfold upsert_site
        rw [hsk, if_neg (fun h => hk h.symm)]
      rw [h1, List.filter_cons, if_neg (by simp [hk])]

/-- The conflict update only reads the existing row's key columns and
`data_source` (for a defaulted incoming record). -/
lemma updated_row_default_congr (proj : Rat × Rat → Rat × Rat)
    (a b : StoredSite) (r : SiteRecord)
    (hid : a.site_id = b.site_id) (hc : a.carrier = b.carrier)
    (hds : a.data_source = b.data_source) :
    updated_row proj a (default_site_type r) = updated_row proj b (default_site_type r) := by
  unfold updated_row default_site_type
  simp [hid, hc, hds, some_orElse_eq]

/-- Replaying records cannot delete the row and preserves the fields the
update never writes: the key columns and `data_source`. -/
lemma apply_at_fields (proj : Rat × Rat → Rat × Rat) (recs : List SiteRecord) :
    ∀ (a : StoredSite), ∃ w, apply_at proj (some a) recs = some w
      ∧ w.site_id = a.site_id ∧ w.carrier = a.carrier
      ∧ w.data_source = a.data_source := by
  induction recs with
  | nil => exact fun a => ⟨a, rfl, rfl, rfl, rfl⟩
  | cons r recs ih =>
    intro a
    obtain ⟨w, hw, h1, h2, h3⟩ := ih (updated_row proj a (default_site_type r))
    exact ⟨w, hw, h1, h2, h3⟩

/-- Replay from two starting rows agreeing on the three retained fields is
equal once at least one record is replayed. -/
lemma apply_at_congr (proj : Rat × Rat → Rat × Rat) (recs : List SiteRecord)
    (r : SiteRecord) (a b : StoredSite)
    (hid : a.site_id = b.site_id) (hc : a.carrier = b.carrier)
    (hds : a.data_source = b.data_source) :
    apply_at proj (some a) (r :: recs) = apply_at proj (some b) (r :: recs) := by
  show apply_at proj (some (updated_row proj a (default_site_type r))) recs
      = apply_at proj (some (updated_row proj b (default_site_type r))) recs
  rw [updated_row_default_congr proj a b r hid hc hds]

/-- Updating twice with the same defaulted record is the same as once. -/
lemma updated_updated_absorb (proj : Rat × Rat → Rat × Rat)
    (q : StoredSite) (r : SiteRecord) :
    updated_row proj (updated_row proj q (default_site_type r)) (default_site_type r)
      = updated_row proj q (default_site_type r) := by
  unfold updated_row default_site_type
  simp [some_orElse_eq]

/-- Updating a freshly inserted defaulted record with itself is a no-op. -/
lemma updated_inserted_absorb (proj : Rat × Rat → Rat × Rat) (r : SiteRecord) :
    updated_row proj (inserted_row proj (default_site_type r)) (default_site_type r)
      = inserted_row proj (default_site_type r) := by
  unfold updated_row inserted_row default_site_type
  simp [some_orElse_eq]

/-- Replaying a record list twice at one key equals replaying it once. -/
lemma apply_at_idem (proj : Rat × Rat → Rat × Rat) (recs : List SiteRecord) :
    ∀ (o : Option StoredSite),
    apply_at proj (apply_at proj o recs) recs = apply_at proj o recs := by
  cases recs with
  | nil => exact fun o => rfl
  | cons r recs =>
    intro o
    have key : ∀ b : StoredSite,
        updated_row proj b (default_site_type r) = b →
        apply_at proj (apply_at proj (some b) recs) (r :: recs)
          = apply_at proj (some b) recs := by
      intro b habs
      obtain ⟨w, hw, h1, h2, h3⟩ := apply_at_fields proj recs b
      rw [hw]
      calc apply_at proj (some w) (r :: recs)
          = apply_at proj (some b) (r :: recs) :=
            apply_at_congr proj recs r w b h1 h2 h3
        _ = apply_at proj (some (updated_row proj b (default_site_type r))) recs := rfl
        _ = apply_at proj (some b) recs := by rw [habs]
        _ = some w := hw
    cases o with
    | some q =>
      have hfirst : apply_at proj (some q) (r :: recs)
          = apply_at proj (some (updated_row proj q (default_site_type r))) recs := rfl
      rw [hfirst]
      exact key (updated_row proj q (default_site_type r)) (updated_updated_absorb proj q r)
    | none =>
      have hfirst : apply_at proj none (r :: recs)
          = apply_at proj (some (inserted_row proj (default_site_type r))) recs := rfl
      rw [hfirst]
      exact key (inserted_row proj (default_site_type r)) (updated_inserted_absorb proj r)

/-- C5: upserting the same batch of records twice with identical input is
idempotent — the store state after running the batch twice equals the
state after running it once. -/
theorem C5_upsert_idempotent (proj : Rat × Rat → Rat × Rat)
    (records : List SiteRecord) (s : SiteStore) :
    insert_mobile_sites proj records (insert_mobile_sites proj records s)
      = insert_mobile_sites proj records s := by
  funext k
  rw [insert_mobile_sites_char proj records (insert_mobile_sites proj records s) k,
      insert_mobile_sites_char proj records s k]
  exact apply_at_idem proj _ (s k)
